/-
Verification of the layered configuration-resolution engine of ReFrame
(`reframe/core/config.py` and `reframe/frontend/argparse.py`).

The Python code is shallowly embedded: JSON-like documents become the
inductive type `JVal`, the `_SiteConfig` object becomes the structure
`SiteConfig`, and each method becomes an executable Lean function that
follows the Python source statement by statement.  Uncaught Python
exceptions are made explicit through `Except`/error values.
-/
import Mathlib

set_option autoImplicit false

/-- A JSON-like Python value, as stored in a configuration document.
Dictionaries are association lists in insertion order (Python dicts
preserve insertion order), keyed by strings as in JSON documents. -/
inductive JVal where
  | str  : String → JVal
  | int  : Int → JVal
  | bool : Bool → JVal
  | null : JVal
  | list : List JVal → JVal
  | dict : List (String × JVal) → JVal

mutual

/-- Structural (Python `==`) equality test on `JVal`. -/
def JVal.beq : JVal → JVal → Bool
  | .str a, .str b => a == b
  | .int a, .int b => a == b
  | .bool a, .bool b => a == b
  | .null, .null => true
  | .list a, .list b => JVal.beqList a b
  | .dict a, .dict b => JVal.beqDict a b
  | _, _ => false

/-- Elementwise equality test on lists of `JVal`. -/
def JVal.beqList : List JVal → List JVal → Bool
  | [], [] => true
  | x :: xs, y :: ys => JVal.beq x y && JVal.beqList xs ys
  | _, _ => false

/-- Entrywise equality test on string-keyed association lists of `JVal`. -/
def JVal.beqDict : List (String × JVal) → List (String × JVal) → Bool
  | [], [] => true
  | (k, v) :: xs, (k', v') :: ys =>
      k == k' && JVal.beq v v' && JVal.beqDict xs ys
  | _, _ => false

end

mutual

theorem JVal.beq_iff : ∀ (a b : JVal), JVal.beq a b = true ↔ a = b
  | .str a, b => by cases b <;> simp [JVal.beq]
  | .int a, b => by cases b <;> simp [JVal.beq]
  | .bool a, b => by cases b <;> simp [JVal.beq]
  | .null, b => by cases b <;> simp [JVal.beq]
  | .list a, b => by
      cases b <;> simp [JVal.beq]
      exact JVal.beqList_iff a _
  | .dict a, b => by
      cases b <;> simp [JVal.beq]
      exact JVal.beqDict_iff a _

theorem JVal.beqList_iff : ∀ (a b : List JVal), JVal.beqList a b = true ↔ a = b
  | [], b => by cases b <;> simp [JVal.beqList]
  | x :: xs, b => by
      cases b with
      | nil => simp [JVal.beqList]
      | cons y ys =>
          simp [JVal.beqList, JVal.beq_iff x y, JVal.beqList_iff xs ys]

theorem JVal.beqDict_iff :
    ∀ (a b : List (String × JVal)), JVal.beqDict a b = true ↔ a = b
  | [], b => by cases b <;> simp [JVal.beqDict]
  | (k, v) :: xs, b => by
      cases b with
      | nil => simp [JVal.beqDict]
      | cons p ys =>
          obtain ⟨k', v'⟩ := p
          simp [JVal.beqDict, JVal.beq_iff v v', JVal.beqDict_iff xs ys,
                and_assoc]

end

instance : DecidableEq JVal := fun a b => decidable_of_iff _ (JVal.beq_iff a b)

/-- First-match lookup in an association list (Python `dict[k]` /
`dict.get(k)` on an insertion-ordered dict with unique keys). -/
def lookupAssoc {α : Type} (l : List (String × α)) (k : String) : Option α :=
  match l with
  | [] => none
  | (k', v) :: rest => if k' = k then some v else lookupAssoc rest k

/-- Python `d[k] = v` on a dict: replace the value in place if the key
exists, otherwise append the binding at the end. -/
def insertAssoc {α : Type} (l : List (String × α)) (k : String) (v : α) :
    List (String × α) :=
  match l with
  | [] => [(k, v)]
  | (k', v') :: rest =>
      if k' = k then (k', v) :: rest else (k', v') :: insertAssoc rest k v

/-- Splitter core of Python `s.split(sep)` over character lists, driven
by a fuel argument equal to the input length so that it reduces by plain
kernel computation. -/
def splitOnListFuel (sep : List Char) : Nat → List Char → List (List Char)
  | _, [] => [[]]
  | 0, l => [l]
  | fuel + 1, c :: rest =>
      if sep.isPrefixOf (c :: rest) then
        [] :: splitOnListFuel sep fuel (List.drop (sep.length - 1) rest)
      else
        match splitOnListFuel sep fuel rest with
        | [] => [[c]]
        | g :: gs => (c :: g) :: gs

/-- Python `s.split(sep)` for a non-empty separator (Python rejects an
empty one). -/
def pySplitOnStr (sep : String) (s : String) : List String :=
  match sep.toList with
  | [] => [s]
  | l => (splitOnListFuel l s.toList.length s.toList).map String.mk

/-- Python `sep.join(parts)`. -/
def joinSep (sep : String) : List String → String
  | [] => ""
  | [x] => x
  | x :: xs => x ++ sep ++ joinSep sep xs

/-- Whether the first character of a string is `c` (false when empty). -/
def strStartsWith (c : Char) (s : String) : Bool :=
  match s.toList with
  | [] => false
  | c' :: _ => c' = c

/-- Python `s.startswith(p)`. -/
def pyStartswith (p s : String) : Bool :=
  p.toList.isPrefixOf s.toList

/-- Python `s[1:]`. -/
def strDropOne (s : String) : String :=
  String.mk (s.toList.drop 1)

/-- Decimal value of a digit run (`none` on a non-digit). -/
def digitsVal : List Char → Nat → Option Nat
  | [], acc => some acc
  | c :: rest, acc =>
      if c.isDigit then digitsVal rest (acc * 10 + (c.toNat - 48)) else none

/-- Python truthiness of a `JVal` (`bool(x)`). -/
def pyFalsy : JVal → Bool
  | .null => true
  | .bool b => !b
  | .int n => n == 0
  | .str s => s == ""
  | .list l => l.isEmpty
  | .dict m => m.isEmpty

/-- Python iteration `for x in v`: lists yield their elements, strings
yield their characters as one-character strings, dicts yield their keys;
other values are not iterable (`TypeError`). -/
def pyIterate : JVal → Except Unit (List JVal)
  | .list l => .ok l
  | .str s => .ok (s.toList.map (fun c => JVal.str (String.mk [c])))
  | .dict m => .ok (m.map (fun p => JVal.str p.1))
  | _ => .error ()

/-- Python list indexing `l[i]` with negative-index support. -/
def pyListGet (l : List JVal) (i : Int) : Option JVal :=
  if 0 ≤ i then
    if i < (l.length : Int) then l.get? i.toNat else none
  else
    if 0 ≤ (l.length : Int) + i then l.get? ((l.length : Int) + i).toNat
    else none

/-- Python string indexing `s[i]` (yields a one-character string). -/
def pyStrGet (s : String) (i : Int) : Option String :=
  if 0 ≤ i then
    if i < (s.toList.length : Int) then
      (s.toList.get? i.toNat).map (fun c => String.mk [c])
    else none
  else
    if 0 ≤ (s.toList.length : Int) + i then
      (s.toList.get? ((s.toList.length : Int) + i).toNat).map
        (fun c => String.mk [c])
    else none

/-- Python `int(s)` on a path segment: an optional sign followed by at
least one digit (exotic spellings such as surrounding whitespace or digit
group underscores are not modelled). -/
def pyIntSeg (s : String) : Option Int :=
  match s.toList with
  | [] => none
  | '-' :: rest =>
      match rest with
      | [] => none
      | _ => (digitsVal rest 0).map (fun n => -(n : Int))
  | '+' :: rest =>
      match rest with
      | [] => none
      | _ => (digitsVal rest 0).map (fun n => (n : Int))
  | l => (digitsVal l 0).map (fun n => (n : Int))

/-- A prepared path segment of `_SiteConfig.get`: integer-parsable
segments become indices, everything else stays a string key. -/
inductive Seg where
  | idx : Int → Seg
  | key : String → Seg
deriving DecidableEq

/-- The segment-preparation loop of `_SiteConfig.get`
(`option.split('/')` followed by `int` conversion attempts). -/
def prepare (option : String) : List Seg :=
  (pySplitOnStr "/" option).map
    (fun s => match pyIntSeg s with
      | some n => Seg.idx n
      | none => Seg.key s)

/-- A Python exception escaping or routed inside `_SiteConfig.get`. -/
inductive PyErr where
  | indexError
  | typeError
  | keyError
deriving DecidableEq

/-- The generator for the stripped path: keep string segments whose first
character is not `'@'`.  An empty string segment makes `x[0]` raise
`IndexError`, exactly as in the Python source. -/
def strippedKeys : List Seg → Except PyErr (List String)
  | [] => .ok []
  | Seg.idx _ :: rest => strippedKeys rest
  | Seg.key s :: rest =>
      if s = "" then .error .indexError
      else if strStartsWith '@' s then strippedKeys rest
      else do
        let t ← strippedKeys rest
        .ok (s :: t)

/-- Outcome of a Python subscript `value[d]`, classified by the exception
handlers of `_SiteConfig.get`: `TypeError`/`IndexError` are one handler,
`KeyError` another. -/
inductive SubscriptRes where
  | val : JVal → SubscriptRes
  | typeOrIndexErr
  | keyErr
deriving DecidableEq

/-- Python `value[d]` for a prepared segment. Indexing a string-keyed
dict with an integer raises `KeyError`; indexing a list or string with a
string, or subscripting a non-container, raises `TypeError`; an
out-of-range list or string index raises `IndexError`. -/
def subscript (v : JVal) (d : Seg) : SubscriptRes :=
  match v, d with
  | .dict m, .key s =>
      match lookupAssoc m s with
      | some x => .val x
      | none => .keyErr
  | .dict _, .idx _ => .keyErr
  | .list l, .idx i =>
      match pyListGet l i with
      | some x => .val x
      | none => .typeOrIndexErr
  | .list _, .key _ => .typeOrIndexErr
  | .str s, .idx i =>
      match pyStrGet s i with
      | some c => .val (.str c)
      | none => .typeOrIndexErr
  | .str _, .key _ => .typeOrIndexErr
  | _, _ => .typeOrIndexErr

/-- The name scan of the `'@'` branch of `_SiteConfig.get`: walk the
elements looking for `obj['name'] == nm`; a non-dict element raises
`TypeError`, a dict without `'name'` raises `KeyError`; exhaustion means
not found. -/
def scanNamed (nm : String) : List JVal → Except PyErr (Option JVal)
  | [] => .ok none
  | e :: rest =>
      match e with
      | .dict m =>
          match lookupAssoc m "name" with
          | none => .error .keyError
          | some v =>
              if v = JVal.str nm then .ok (some e) else scanNamed nm rest
      | _ => .error .typeError

/-- The full `'@'` branch: iterate over the current value.  A non-empty
dict yields string keys whose `['name']` subscript raises `TypeError`;
non-iterables raise `TypeError`; empty iterables simply find nothing. -/
def atLookup (nm : String) : JVal → Except PyErr (Option JVal)
  | .list l => scanNamed nm l
  | .dict [] => .ok none
  | .dict (_ :: _) => .error .typeError
  | .str s => if s = "" then .ok none else .error .typeError
  | _ => .error .typeError

/-- The traversal loop of `_SiteConfig.get` over the prepared segments.
`sd` is `self._schema['defaults']`, `stripped` the stripped path and
`dflt` the caller default. -/
def traverseDoc (sd : List (String × JVal)) (stripped : String) (dflt : JVal) :
    JVal → List Seg → Except PyErr JVal
  | v, [] => .ok v
  | v, d :: rest =>
      match d with
      | .key s =>
          if s = "" then .error .indexError
          else if strStartsWith '@' s then
            match atLookup (strDropOne s) v with
            | .error e => .error e
            | .ok none => .ok dflt
            | .ok (some v') => traverseDoc sd stripped dflt v' rest
          else
            match subscript v (.key s) with
            | .val v' => traverseDoc sd stripped dflt v' rest
            | .typeOrIndexErr => .ok dflt
            | .keyErr => .ok ((lookupAssoc sd stripped).getD dflt)
      | .idx i =>
          match subscript v (.idx i) with
          | .val v' => traverseDoc sd stripped dflt v' rest
          | .typeOrIndexErr => .ok dflt
          | .keyErr => .ok ((lookupAssoc sd stripped).getD dflt)

/-- The `_SiteConfig` object: the immutable original document, the
reduced view (`_local_config`, empty dict when no target is selected),
the active target (`_local_system`), the sticky overlay and the parts of
the JSON schema the engine reads (`defaults` and `required`). -/
structure SiteConfig where
  site_config : List (String × JVal)
  local_config : List (String × JVal)
  local_system : Option String
  sticky_options : List (String × JVal)
  schema_defaults : List (String × JVal)
  schema_required : List String
deriving DecidableEq

/-- `_SiteConfig._pick_config`: the reduced view if it is non-empty
(truthy), otherwise the original document. -/
def SiteConfig.pick_config (c : SiteConfig) : JVal :=
  if c.local_config = [] then .dict c.site_config else .dict c.local_config

/-- `_SiteConfig.add_sticky_option`. -/
def SiteConfig.add_sticky_option (c : SiteConfig) (option : String)
    (value : JVal) : SiteConfig :=
  { c with sticky_options := insertAssoc c.sticky_options option value }

/-- `_SiteConfig.remove_sticky_option`. -/
def SiteConfig.remove_sticky_option (c : SiteConfig) (option : String) :
    SiteConfig :=
  { c with sticky_options := c.sticky_options.filter (fun p => p.1 ≠ option) }

/-- `_SiteConfig.get`: prepare the segments, compute the stripped path
(this may raise on an empty segment), consult the sticky overlay, then
traverse the active document. -/
def SiteConfig.get (c : SiteConfig) (option : String) (dflt : JVal) :
    Except PyErr JVal :=
  let segs := prepare option
  match strippedKeys segs with
  | .error e => .error e
  | .ok ks =>
      let stripped := joinSep "/" ks
      match lookupAssoc c.sticky_options stripped with
      | some v => .ok v
      | none => traverseDoc c.schema_defaults stripped dflt c.pick_config segs

/-- The configuration errors (`ConfigError` and uncaught Python
exceptions) that `_SiteConfig.select_subconfig` can produce.  `pyError`
stands for any uncaught exception from malformed document shapes. -/
inductive ConfigErr where
  | systemNotFound : String → ConfigErr
  | comboNotFound : String → Option String → ConfigErr
  | sectionNotDefined : String → String → ConfigErr
  | environsNotDefined : List JVal → String → ConfigErr
  | pyError
deriving DecidableEq

/-- Modelled from the spec: the class `reframe.utility.ScopedDict` is not
part of the provided sources; the spec describes it as the ScopeResolver,
a mapping `(scope-pattern, key) - value` resolved against a concrete
colon-delimited scope string using longest-prefix specificity with
wildcard fallback.  Entries are kept in insertion order; inserting an
equally specific pattern for the same key overwrites the earlier one. -/
structure ScopedDict where
  entries : List (String × String × JVal)
deriving DecidableEq

/-- Modelled from the spec: a stored pattern matches a concrete scope if
it is the wildcard or its colon-separated components are an exact prefix
of the scope's components. -/
def patternMatches (pat scope : String) : Bool :=
  pat = "*" || (pySplitOnStr ":" pat).isPrefixOf (pySplitOnStr ":" scope)

/-- Modelled from the spec: specificity of a pattern, the wildcard being
least specific and more prefix components winning. -/
def patternSpecificity (pat : String) : Nat :=
  if pat = "*" then 0 else (pySplitOnStr ":" pat).length

/-- Modelled from the spec: entry update for `insert`, overwriting an
equally specific earlier pattern for the same key in place. -/
def scopedInsertEntries (pat key : String) (v : JVal) :
    List (String × String × JVal) → List (String × String × JVal)
  | [] => [(pat, key, v)]
  | (p, k, w) :: rest =>
      if p = pat ∧ k = key then (p, k, v) :: rest
      else (p, k, w) :: scopedInsertEntries pat key v rest

/-- Modelled from the spec: `insert(pattern, key, value)` with mapping
semantics for an equally specific pattern on the same key. -/
def ScopedDict.insert (sd : ScopedDict) (pat key : String) (v : JVal) :
    ScopedDict :=
  ⟨scopedInsertEntries pat key v sd.entries⟩

/-- Modelled from the spec: `resolve(scope, key)` returns the value of
the most specific matching pattern for `key`, or nothing if no pattern
matches. -/
def ScopedDict.resolve (sd : ScopedDict) (scope key : String) : Option JVal :=
  sd.entries.foldl
    (fun best e =>
      if e.2.1 = key ∧ patternMatches e.1 scope then
        match best with
        | none => some e
        | some b =>
            if patternSpecificity b.1 < patternSpecificity e.1 then some e
            else best
      else best)
    none
  |>.map (fun e => e.2.2)

/-- Python `system_fullname.split(':', maxsplit=1)` with the
`ValueError` fallback: a target is split into system and optional
partition at the first colon. -/
def splitTarget (s : String) : String × Option String :=
  match pySplitOnStr ":" s with
  | [] => (s, none)
  | [x] => (x, none)
  | x :: rest => (x, some (joinSep ":" rest))

/-- Python f-string rendering of a record key or target pattern.  Only
strings occur in well-formed documents; the representation of container
values is abbreviated. -/
def jvalScopeStr : JVal → String
  | .str s => s
  | .int n => toString n
  | .bool b => if b then "True" else "False"
  | .null => "None"
  | .list _ => "<list>"
  | .dict _ => "<dict>"

/-- The `lambda x: x['name'] == nm` filter used on `systems` and on
`partitions`: every examined element must be a dict with a `'name'` key,
otherwise the comparison raises an uncaught exception. -/
def filterByName (nm : String) : List JVal → Except Unit (List JVal)
  | [] => .ok []
  | x :: rest =>
      match x with
      | .dict m =>
          match lookupAssoc m "name" with
          | none => .error ()
          | some v => do
              let tl ← filterByName nm rest
              if v = JVal.str nm then .ok (x :: tl) else .ok tl
      | _ => .error ()

/-- The partition-filtering step of `select_subconfig` (lines 251-257 of
`config.py`): read `systems[0]['partitions']`, filter it when a partition
name was requested, and return the (possibly updated) first system
together with the value the truthiness check at line 258 inspects. -/
def partitionFilter (part_name : Option String) (s0 : JVal) :
    Except ConfigErr (JVal × JVal) :=
  match s0 with
  | .dict m =>
      match lookupAssoc m "partitions" with
      | none => .error .pyError
      | some pv0 =>
          match part_name with
          | none => .ok (s0, pv0)
          | some pn =>
              match pyIterate pv0 with
              | .error _ => .error .pyError
              | .ok parts =>
                  match filterByName pn parts with
                  | .error _ => .error .pyError
                  | .ok kept =>
                      .ok (.dict (insertAssoc m "partitions" (.list kept)),
                           .list kept)
  | _ => .error .pyError

/-- The key of a section record: `obj.get('name', name)` rendered as in
an f-string. -/
def objKey (obj : JVal) (name : String) : String :=
  match obj with
  | .dict m =>
      match lookupAssoc m "name" with
      | some v => jvalScopeStr v
      | none => name
  | _ => name

/-- The first loop over a section (lines 275-282 of `config.py`):
register every record under `(target-system pattern, key)`.  The schema
default `'{name}/target_systems'` is evaluated for every record before
`obj.get` falls back to it, so its absence is an uncaught `KeyError`
even for records that carry their own `target_systems`. -/
def firstLoop (sdefs : List (String × JVal)) (name : String) :
    List JVal → ScopedDict → Except ConfigErr ScopedDict
  | [], sd => .ok sd
  | obj :: rest, sd =>
      match obj with
      | .dict m =>
          match lookupAssoc sdefs (name ++ "/target_systems") with
          | none => .error .pyError
          | some defTs =>
              let key := objKey obj name
              let ts := (lookupAssoc m "target_systems").getD defTs
              match pyIterate ts with
              | .error _ => .error .pyError
              | .ok tlist =>
                  firstLoop sdefs name rest
                    (tlist.foldl
                      (fun acc t => acc.insert (jvalScopeStr t) key obj) sd)
      | _ => .error .pyError

/-- The second loop over a section (lines 284-297 of `config.py`):
resolve each first-seen key against the full target scope and keep the
match when one exists (a `KeyError` from the resolver is swallowed). -/
def secondLoop (sd : ScopedDict) (fullname name : String) :
    List JVal → List String → List JVal
  | [], _ => []
  | obj :: rest, seen =>
      let key := objKey obj name
      if key ∈ seen then secondLoop sd fullname name rest seen
      else
        match sd.resolve fullname key with
        | some val => val :: secondLoop sd fullname name rest (key :: seen)
        | none => secondLoop sd fullname name rest (key :: seen)

/-- The per-section build loop of `select_subconfig` (lines 267-297 of
`config.py`), threading the partially built reduced view so that an
uncaught exception leaves the sections already processed in place. -/
def buildSections (sdefs : List (String × JVal)) (fullname : String) :
    List (String × JVal) → List (String × JVal) →
    Option ConfigErr × List (String × JVal)
  | acc, [] => (none, acc)
  | acc, (name, sect) :: rest =>
      if name = "systems" then buildSections sdefs fullname acc rest
      else
        match pyIterate sect with
        | .error _ => (some .pyError, acc)
        | .ok objs =>
            match firstLoop sdefs name objs ⟨[]⟩ with
            | .error e => (some e, acc)
            | .ok sd =>
                let resolved := secondLoop sd fullname name objs []
                let acc' :=
                  if resolved.isEmpty then acc
                  else acc ++ [(name, JVal.list resolved)]
                buildSections sdefs fullname acc' rest

/-- Duplicate-free collection of the values of a Python set (membership
is all that matters; this keeps the last occurrence of each value). -/
def dedupJ : List JVal → List JVal
  | [] => []
  | x :: rest => if x ∈ rest then dedupJ rest else x :: dedupJ rest

/-- The union `itertools.chain(*(p['environs'] for p in partitions))`:
every partition must be a dict with an iterable `'environs'` entry. -/
def chainEnvirons : List JVal → Except Unit (List JVal)
  | [] => .ok []
  | p :: rest =>
      match p with
      | .dict m =>
          match lookupAssoc m "environs" with
          | none => .error ()
          | some ev => do
              let es ← pyIterate ev
              let tl ← chainEnvirons rest
              .ok (es ++ tl)
      | _ => .error ()

/-- The comprehension `{e['name'] for e in ...}`: every element must be a
dict with a `'name'` key. -/
def namesOf : List JVal → Except Unit (List JVal)
  | [] => .ok []
  | e :: rest =>
      match e with
      | .dict m =>
          match lookupAssoc m "name" with
          | none => .error ()
          | some v => do
              let tl ← namesOf rest
              .ok (v :: tl)
      | _ => .error ()

/-- The required-sections check (lines 299-303 of `config.py`): the first
schema-required section missing from the reduced view. -/
def requiredMissing (sreq : List String)
    (lc : List (String × JVal)) : Option String :=
  sreq.find? (fun n => (lookupAssoc lc n).isNone)

/-- The environment cross-check of `select_subconfig` (lines 305-320 of
`config.py`): the union of `environs` over the partitions of the selected
system must be contained in the names of the reduced `environments`
section.  Reading `local_config['environments']` raises `KeyError` when
the section is absent. -/
def envsCheck (fullname : String) (systems : List JVal)
    (lc : List (String × JVal)) : Option ConfigErr :=
  match systems with
  | [] => some .pyError
  | s0 :: _ =>
      match s0 with
      | .dict m =>
          match lookupAssoc m "partitions" with
          | none => some .pyError
          | some pv =>
              match pyIterate pv with
              | .error _ => some .pyError
              | .ok parts =>
                  match chainEnvirons parts with
                  | .error _ => some .pyError
                  | .ok sysEnvs =>
                      match lookupAssoc lc "environments" with
                      | none => some .pyError
                      | some ev =>
                          match pyIterate ev with
                          | .error _ => some .pyError
                          | .ok envObjs =>
                              match namesOf envObjs with
                              | .error _ => some .pyError
                              | .ok found =>
                                  let undef := (dedupJ sysEnvs).filter
                                    (fun x => x ∉ found)
                                  if undef.isEmpty then none
                                  else some
                                    (.environsNotDefined undef fullname)
      | _ => some .pyError

/-- The post-filtering stages of `select_subconfig` (lines 265-320 of
`config.py`): build the reduced sections, run the required-sections
check, then the environment cross-check, returning the error, if any,
together with the reduced view as built so far.  The deep copy of the
original document is the identity here because documents are values; the
observable aliasing of the filtered `systems` list into the local copy
never reaches the result (the `systems` section of the copy is skipped
by the build loop). -/
def selectTail (sdefs : List (String × JVal)) (sreq : List String)
    (fullname : String) (site : List (String × JVal))
    (systems : List JVal) : Option ConfigErr × List (String × JVal) :=
  let start := [("systems", JVal.list systems)]
  let built := buildSections sdefs fullname start site
  match built.1 with
  | some e => (some e, built.2)
  | none =>
      match requiredMissing sreq built.2 with
      | some n => (some (.sectionNotDefined n fullname), built.2)
      | none =>
          match envsCheck fullname systems built.2 with
          | some e => (some e, built.2)
          | none => (none, built.2)

/-- The body of `select_subconfig` up to the partition emptiness check
(lines 231-263 of `config.py`): parse the target, filter the systems,
filter the partitions, then hand over to `selectTail`. -/
def selectCore (site : List (String × JVal)) (sdefs : List (String × JVal))
    (sreq : List String) (fullname : String) :
    Option ConfigErr × List (String × JVal) :=
  let sp := splitTarget fullname
  match lookupAssoc site "systems" with
  | none => (some .pyError, [])
  | some sysSection =>
      match pyIterate sysSection with
      | .error _ => (some .pyError, [])
      | .ok allSystems =>
          match filterByName sp.1 allSystems with
          | .error _ => (some .pyError, [])
          | .ok systems =>
              match systems with
              | [] => (some (.systemNotFound sp.1), [])
              | s0 :: srest =>
                  match partitionFilter sp.2 s0 with
                  | .error e => (some e, [])
                  | .ok (s0', pv) =>
                      if pyFalsy pv then
                        (some (.comboNotFound sp.1 sp.2), [])
                      else selectTail sdefs sreq fullname site (s0' :: srest)

/-- The non-guard branch of `_SiteConfig.select_subconfig`: run the
reduction on a fresh state (the reduced view is reset before any check)
and record the new active target only on success. -/
def selectFresh (c : SiteConfig) (fullname : String) :
    Option ConfigErr × SiteConfig :=
  let r := selectCore c.site_config c.schema_defaults c.schema_required
    fullname
  (r.1,
   { c with
       local_config := r.2,
       local_system := match r.1 with
         | none => some fullname
         | some _ => c.local_system })

/-- `_SiteConfig.select_subconfig` for an explicitly given target (the
`None` target triggers hostname auto-detection, which performs I/O and is
outside this model): a no-op when the target is already active. -/
def SiteConfig.select_subconfig (c : SiteConfig) (fullname : String) :
    Option ConfigErr × SiteConfig :=
  if c.local_system = some fullname then (none, c)
  else selectFresh c fullname

/-- The state reached after a sequence of `select_subconfig` calls,
keeping whatever state each call leaves behind (also on failure). -/
def applySelects (c : SiteConfig) (ts : List String) : SiteConfig :=
  ts.foldl (fun st t => (st.select_subconfig t).2) c

/-- A value held by a command-line option slot: argparse strings, comma
lists, booleans, integers, and the `CONST_DEFAULT` placeholder object. -/
inductive OptVal where
  | str : String → OptVal
  | list : List String → OptVal
  | bool : Bool → OptVal
  | int : Int → OptVal
  | constDefault : OptVal
deriving DecidableEq

/-- The `type` field of an option binding, with its Python conversion
behaviour on an environment-variable string. -/
inductive ArgType where
  | str
  | int
deriving DecidableEq

/-- Conversion `arg_type(ret)`: `int(...)` fails on a non-numeric string
(in Python the resulting error surfaces as a `ValueError` either
directly or re-raised from a `TypeError`). -/
def ArgType.conv : ArgType → String → Except Unit OptVal
  | .str, s => .ok (.str s)
  | .int, s =>
      match pyIntSeg s with
      | some n => .ok (.int n)
      | none => .error ()

/-- Modelled from the spec: `reframe.utility.typecheck.Bool` is not part
of the provided sources; per the spec, boolean-toggle options parse a
boolean token, failing with a conversion error if it is not one of the
recognized boolean spellings. -/
def parseBoolToken (s : String) : Option Bool :=
  if s = "true" ∨ s = "yes" ∨ s = "y" ∨ s = "1" then some true
  else if s = "false" ∨ s = "no" ∨ s = "n" ∨ s = "0" then some false
  else none

/-- One entry of `_option_map`: the
`(envvar, configvar, action, type, default)` tuple stored by
`add_argument`. -/
structure OptionSpec where
  envvar : Option String
  configvar : Option String
  action : String
  arg_type : ArgType
  default : Option OptVal
deriving DecidableEq

/-- Python `envvar.split(maxsplit=2)` followed by the delimiter
extraction of `_Namespace.__getattr__`: the variable name is the first
whitespace-separated token, the delimiter the second if present, else a
comma. -/
def envvarSplit (s : String) : String × String :=
  match (pySplitOnStr " " s).filter (fun t => t ≠ "") with
  | [] => ("", ",")
  | [n] => (n, ",")
  | n :: d :: _ => (n, d)

/-- The `_undefined` predicate of `argparse.py`: a slot is undefined when
it holds `None` or the `CONST_DEFAULT` placeholder. -/
def undefinedVal : Option OptVal → Bool
  | none => true
  | some .constDefault => true
  | some _ => false

/-- An exception escaping `_Namespace.__getattr__`. -/
inductive NsErr where
  | valueError
  | attributeError
deriving DecidableEq

/-- `_Namespace.__getattr__`: read the slot from the parsed namespace
(attribute misses on mapped options become `None`), then, when the slot
is undefined and an environment variable is bound, resolve from the
environment with the action-specific conversion, falling back to the
declared default (or the `CONST_DEFAULT` placeholder). -/
def getattrNs (env : List (String × String))
    (om : List (String × OptionSpec))
    (ns : List (String × Option OptVal)) (name : String) :
    Except NsErr (Option OptVal) :=
  if strStartsWith '_' name then .error .attributeError
  else
    let ret0 : Except NsErr (Option OptVal) :=
      match lookupAssoc ns name with
      | some r => .ok r
      | none =>
          match lookupAssoc om name with
          | none => .error .attributeError
          | some _ => .ok none
    match ret0 with
    | .error e => .error e
    | .ok ret =>
        match lookupAssoc om name with
        | none => .ok ret
        | some spec =>
            let dflt :=
              if ret = some OptVal.constDefault then some OptVal.constDefault
              else spec.default
            match spec.envvar with
            | some espec =>
                if undefinedVal ret then
                  let nd := envvarSplit espec
                  match lookupAssoc env nd.1 with
                  | some s =>
                      if pyStartswith "append" spec.action then
                        .ok (some (.list (pySplitOnStr nd.2 s)))
                      else if spec.action = "store_true" ∨
                          spec.action = "store_false" then
                        match parseBoolToken s with
                        | some b => .ok (some (.bool b))
                        | none => .error .valueError
                      else if spec.action = "store" ∧
                          spec.arg_type ≠ ArgType.str then
                        match spec.arg_type.conv s with
                        | .ok v => .ok (some v)
                        | .error _ => .error .valueError
                      else .ok (some (.str s))
                  | none => .ok dflt
                else .ok ret
            | none => .ok ret

/-- `ArgumentParser._resolve_attr`: the first defined (non-`None`) value
for the attribute among the given namespaces. -/
def resolve_attr (namespaces : List (Option (List (String × Option OptVal))))
    (attr : String) : Option OptVal :=
  match namespaces with
  | [] => none
  | none :: rest => resolve_attr rest attr
  | some ns :: rest =>
      match (lookupAssoc ns attr).join with
      | some v => some v
      | none => resolve_attr rest attr

/-- Python `resolved + v` when combining an append option with the
carried-over namespace value: list and string concatenation, anything
else raises `TypeError`. -/
def pyAddOpt : OptVal → OptVal → Except Unit OptVal
  | .list a, .list b => .ok (.list (a ++ b))
  | .str a, .str b => .ok (.str (a ++ b))
  | .int a, .int b => .ok (.int (a + b))
  | _, _ => .error ()

/-- One step of the namespace-merging loop of `ArgumentParser.parse_args`
(lines 356-367 of `argparse.py`): an unassigned slot is resolved from the
carried-over namespace and then the defaults, while a freshly parsed
`append` value is prepended with the carried-over value only.  Every
parsed attribute has an `_option_map` entry in the real parser, since
both are written by `add_argument`. -/
def combineEntry (om : List (String × OptionSpec))
    (ns : Option (List (String × Option OptVal)))
    (defaults : List (String × Option OptVal))
    (p : String × Option OptVal) :
    Except Unit (String × Option OptVal) :=
  match p.2 with
  | none => .ok (p.1, resolve_attr [ns, some defaults] p.1)
  | some v =>
      let isAppend :=
        match lookupAssoc om p.1 with
        | some spec => spec.action == "append"
        | none => false
      if isAppend then
        match resolve_attr [ns] p.1 with
        | some r => do
            let w ← pyAddOpt r v
            .ok (p.1, some w)
        | none => .ok (p.1, some v)
      else .ok (p.1, some v)

/-- The namespace-merging loop of `ArgumentParser.parse_args`
(lines 356-367 of `argparse.py`), applied to every parsed attribute. -/
def parseArgsCombine (om : List (String × OptionSpec))
    (parsed : List (String × Option OptVal))
    (ns : Option (List (String × Option OptVal)))
    (defaults : List (String × Option OptVal)) :
    Except Unit (List (String × Option OptVal)) :=
  parsed.mapM (combineEntry om ns defaults)

/-- End-to-end resolution of one option: merge the parsed namespace with
the carried-over one as `parse_args` does, then read the option through
`_Namespace.__getattr__`. -/
def resolveOption (env : List (String × String))
    (om : List (String × OptionSpec))
    (parsed : List (String × Option OptVal))
    (ns : Option (List (String × Option OptVal)))
    (defaults : List (String × Option OptVal)) (name : String) :
    Except Unit (Except NsErr (Option OptVal)) := do
  let vals ← parseArgsCombine om parsed ns defaults
  .ok (getattrNs env om vals name)

/-- The per-option outcome inside `_Namespace.update_config`: skipped
options contribute nothing, a conversion failure contributes an error,
and a defined resolved value contributes a sticky push. -/
def processOption (env : List (String × String))
    (om : List (String × OptionSpec))
    (ns : List (String × Option OptVal)) (p : String × OptionSpec) :
    Option NsErr × Option (String × OptVal) :=
  if p.2.action = "version" ∨ p.2.configvar = none then (none, none)
  else
    match getattrNs env om ns p.1 with
    | .error e => (some e, none)
    | .ok value =>
        if undefinedVal value then (none, none)
        else
          match value, p.2.configvar with
          | some v, some cv => (none, some (cv, v))
          | _, _ => (none, none)

/-- The loop of `_Namespace.update_config` over a suffix of the option
map: `ValueError`s are collected and the loop continues; an
`AttributeError` (only possible for an underscore-prefixed option name)
propagates. -/
def updateConfigGo (env : List (String × String))
    (om : List (String × OptionSpec))
    (ns : List (String × Option OptVal)) :
    List (String × OptionSpec) →
    Except NsErr (List NsErr × List (String × OptVal))
  | [] => .ok ([], [])
  | p :: rest =>
      if p.2.action = "version" ∨ p.2.configvar = none then
        updateConfigGo env om ns rest
      else
        match getattrNs env om ns p.1 with
        | .error .valueError => do
            let r ← updateConfigGo env om ns rest
            .ok (NsErr.valueError :: r.1, r.2)
        | .error .attributeError => .error .attributeError
        | .ok value =>
            if undefinedVal value then updateConfigGo env om ns rest
            else
              match value, p.2.configvar with
              | some v, some cv => do
                  let r ← updateConfigGo env om ns rest
                  .ok (r.1, (cv, v) :: r.2)
              | _, _ => updateConfigGo env om ns rest

/-- `_Namespace.update_config`: resolve every mapped option, collect the
conversion errors, and return them together with the
`add_sticky_option(confvar, value)` pushes made along the way. -/
def update_config (env : List (String × String))
    (om : List (String × OptionSpec))
    (ns : List (String × Option OptVal)) :
    Except NsErr (List NsErr × List (String × OptVal)) :=
  updateConfigGo env om ns om

/-- A small two-section site document (one system `daint` with one
partition `mc` requiring environment `gnu`, and that environment). -/
def siteDaint : List (String × JVal) :=
  [("systems", .list [
     .dict [("name", .str "daint"),
            ("hostnames", .list [.str "daint"]),
            ("partitions", .list [
               .dict [("name", .str "mc"),
                      ("environs", .list [.str "gnu"])]])]]),
   ("environments", .list [
     .dict [("name", .str "gnu"),
            ("target_systems", .list [.str "*"])]])]

/-- Schema data used by the small examples. -/
def defsDaint : List (String × JVal) :=
  [("environments/target_systems", .list [.str "*"]),
   ("general/colorize", .bool true)]

/-- A freshly loaded `_SiteConfig` over `siteDaint`. -/
def cfgDaint : SiteConfig :=
  ⟨siteDaint, [], none, [], defsDaint, ["systems", "environments"]⟩

/-- The same document with the partition also requiring an undefined
environment `intel`. -/
def siteDaint2 : List (String × JVal) :=
  [("systems", .list [
     .dict [("name", .str "daint"),
            ("partitions", .list [
               .dict [("name", .str "mc"),
                      ("environs", .list [.str "gnu", .str "intel"])]])]]),
   ("environments", .list [
     .dict [("name", .str "gnu"),
            ("target_systems", .list [.str "*"])]])]

/-- A `_SiteConfig` whose selected partition references the undefined
environment `intel`. -/
def cfgDaint2 : SiteConfig :=
  ⟨siteDaint2, [], none, [], defsDaint, ["systems", "environments"]⟩

/-- A document whose only system has an empty `partitions` list. -/
def cfgEmptyParts : SiteConfig :=
  ⟨[("systems", .list [
      .dict [("name", .str "sys"), ("partitions", .list [])]])],
   [], none, [], defsDaint, []⟩

/-- `cfgDaint` with a sticky override installed for the stripped path
`a/b`. -/
def cfgSticky : SiteConfig :=
  cfgDaint.add_sticky_option "a/b" (.int 7)

/-- A document whose key `a` holds a plain integer. -/
def cfgTiny : SiteConfig :=
  ⟨[("a", .int 5)], [], none, [], [], []⟩

/-- Every `select_subconfig` call leaves the original document, the
sticky overlay and the schema data untouched. -/
theorem select_preserves (c : SiteConfig) (t : String) :
    ((c.select_subconfig t).2).site_config = c.site_config ∧
    ((c.select_subconfig t).2).sticky_options = c.sticky_options ∧
    ((c.select_subconfig t).2).schema_defaults = c.schema_defaults ∧
    ((c.select_subconfig t).2).schema_required = c.schema_required := by
  by_cases h : c.local_system = some t <;>
    simp [SiteConfig.select_subconfig, selectFresh, h]

/-- `applySelects` preserves the original document and the overlay. -/
theorem applySelects_preserves (ts : List String) : ∀ (c : SiteConfig),
    (applySelects c ts).site_config = c.site_config ∧
    (applySelects c ts).sticky_options = c.sticky_options := by
  induction ts with
  | nil => intro c; exact ⟨rfl, rfl⟩
  | cons t ts ih =>
      intro c
      have h := select_preserves c t
      have h' := ih (c.select_subconfig t).2
      simp only [applySelects, List.foldl_cons] at h' ⊢
      exact ⟨h'.1.trans h.1, h'.2.trans h.2.1⟩

/-- A sticky overlay hit is returned immediately by `get`. -/
theorem get_sticky_hit (c : SiteConfig) (p : String) (d : JVal)
    (ks : List String) (v : JVal)
    (h1 : strippedKeys (prepare p) = .ok ks)
    (h2 : lookupAssoc c.sticky_options (joinSep "/" ks) = some v) :
    c.get p d = .ok v := by
  simp only [SiteConfig.get, h1, h2]

/-- On a sticky overlay miss, `get` is the structural traversal of the
active document. -/
theorem get_sticky_miss (c : SiteConfig) (p : String) (d : JVal)
    (ks : List String)
    (h1 : strippedKeys (prepare p) = .ok ks)
    (h2 : lookupAssoc c.sticky_options (joinSep "/" ks) = none) :
    c.get p d =
      traverseDoc c.schema_defaults (joinSep "/" ks) d
        c.pick_config (prepare p) := by
  simp only [SiteConfig.get, h1, h2]

/-- A successful `select_subconfig` records the target as active. -/
theorem select_ok_system (c : SiteConfig) (t : String) (c' : SiteConfig)
    (h : c.select_subconfig t = (none, c')) : c'.local_system = some t := by
  unfold SiteConfig.select_subconfig at h
  split at h
  · next hg =>
      obtain ⟨-, h2⟩ := Prod.mk.injEq .. ▸ h
      rw [← h2]; exact hg
  · unfold selectFresh at h
    obtain ⟨h1, h2⟩ := Prod.mk.injEq .. ▸ h
    rw [← h2]
    simp only [h1]

/-- A failing `select_subconfig` leaves the active target (and the
original document) in place. -/
theorem select_err_state (c : SiteConfig) (t : String) (e : ConfigErr)
    (c' : SiteConfig) (h : c.select_subconfig t = (some e, c')) :
    c'.local_system = c.local_system ∧ c'.site_config = c.site_config := by
  unfold SiteConfig.select_subconfig at h
  split at h
  · exact absurd (Prod.mk.injEq .. ▸ h).1 (by simp)
  · unfold selectFresh at h
    obtain ⟨h1, h2⟩ := Prod.mk.injEq .. ▸ h
    rw [← h2]
    simp [h1]

/-- The registration loop only fails with uncaught shape exceptions. -/
theorem firstLoop_err (sdefs : List (String × JVal)) (name : String) :
    ∀ (objs : List JVal) (sd : ScopedDict) (e : ConfigErr),
    firstLoop sdefs name objs sd = .error e → e = .pyError := by
  intro objs
  induction objs with
  | nil => intro sd e h; simp [firstLoop] at h
  | cons obj rest ih =>
      intro sd e h
      unfold firstLoop at h
      split at h
      · split at h
        · simp at h; exact h.symm
        · dsimp only at h
          split at h
          · simp at h; exact h.symm
          · exact ih _ _ h
      · simp at h; exact h.symm

/-- The section build loop only fails with uncaught shape exceptions. -/
theorem buildSections_err (sdefs : List (String × JVal)) (fullname : String) :
    ∀ (sections : List (String × JVal)) (acc : List (String × JVal))
      (e : ConfigErr),
    (buildSections sdefs fullname acc sections).1 = some e →
    e = .pyError := by
  intro sections
  induction sections with
  | nil => intro acc e h; simp [buildSections] at h
  | cons p rest ih =>
      intro acc e h
      unfold buildSections at h
      split at h
      · exact ih _ _ h
      · split at h
        · simp at h; exact h.symm
        · split at h
          · next e' heq =>
              simp at h
              rw [← h]
              exact firstLoop_err _ _ _ _ _ heq
          · dsimp only at h
            exact ih _ _ h

/-- The partition-filtering step only fails with uncaught shape
exceptions. -/
theorem partitionFilter_err (pn : Option String) (s0 : JVal) (e : ConfigErr)
    (h : partitionFilter pn s0 = .error e) : e = .pyError := by
  unfold partitionFilter at h
  repeat' split at h
  all_goals simp_all

/-- The environment cross-check fails either with an uncaught shape
exception or with the undefined-environments error for the target. -/
theorem envsCheck_err (fullname : String) (systems : List JVal)
    (lc : List (String × JVal)) (e : ConfigErr)
    (h : envsCheck fullname systems lc = some e) :
    e = .pyError ∨ ∃ u, e = .environsNotDefined u fullname := by
  unfold envsCheck at h
  repeat' split at h
  all_goals simp_all
  exact Or.inr ⟨_, h.2.symm⟩

/-- Errors of the post-filtering stages are never the target-lookup
errors of the filtering stage. -/
theorem selectTail_err (sdefs : List (String × JVal)) (sreq : List String)
    (fullname : String) (site : List (String × JVal)) (systems : List JVal)
    (e : ConfigErr)
    (h : (selectTail sdefs sreq fullname site systems).1 = some e) :
    e = .pyError ∨ (∃ n, e = .sectionNotDefined n fullname) ∨
    ∃ u, e = .environsNotDefined u fullname := by
  unfold selectTail at h
  dsimp only at h
  split at h
  · next e' heq =>
      simp at h
      exact Or.inl (h ▸ buildSections_err _ _ _ _ _ heq)
  · split at h
    · simp at h
      exact Or.inr (Or.inl ⟨_, h.symm⟩)
    · split at h
      · next e' heq =>
          simp at h
          rcases envsCheck_err _ _ _ _ heq with h1 | h1
          · exact Or.inl (h ▸ h1)
          · exact Or.inr (Or.inr (h ▸ h1))
      · simp at h

/-- Membership in the duplicate-free set image. -/
theorem mem_dedupJ (x : JVal) : ∀ (l : List JVal), x ∈ dedupJ l ↔ x ∈ l := by
  intro l
  induction l with
  | nil => simp [dedupJ]
  | cons a r ih =>
      by_cases h : a ∈ r <;> simp [dedupJ, h, ih, List.mem_cons]
      exact fun e => e ▸ h

/-- An index outside `[-len, len)` misses the list. -/
theorem pyListGet_oor (l : List JVal) (i : Int)
    (h : (l.length : Int) ≤ i ∨ i < -(l.length : Int)) :
    pyListGet l i = none := by
  unfold pyListGet
  split
  · split
    · exfalso; omega
    · rfl
  · split
    · exfalso; omega
    · rfl

/-- Reduction of `selectCore` when no system record matches. -/
theorem selectCore_nil (site sdefs : List (String × JVal))
    (sreq : List String) (t sysN : String) (partN : Option String)
    (ss : JVal) (allSys : List JVal)
    (hsp : splitTarget t = (sysN, partN))
    (hsys : lookupAssoc site "systems" = some ss)
    (hit : pyIterate ss = .ok allSys)
    (hfil : filterByName sysN allSys = .ok []) :
    selectCore site sdefs sreq t = (some (.systemNotFound sysN), []) := by
  simp only [selectCore, hsp, hsys, hit, hfil]

/-- Reduction of `selectCore` when the system is found and the partition
stage succeeds. -/
theorem selectCore_cons (site sdefs : List (String × JVal))
    (sreq : List String) (t sysN : String) (partN : Option String)
    (ss : JVal) (allSys : List JVal) (s0 : JVal) (srest : List JVal)
    (s0' pv : JVal)
    (hsp : splitTarget t = (sysN, partN))
    (hsys : lookupAssoc site "systems" = some ss)
    (hit : pyIterate ss = .ok allSys)
    (hfil : filterByName sysN allSys = .ok (s0 :: srest))
    (hpf : partitionFilter partN s0 = .ok (s0', pv)) :
    selectCore site sdefs sreq t =
      if pyFalsy pv = true then (some (.comboNotFound sysN partN), [])
      else selectTail sdefs sreq t site (s0' :: srest) := by
  simp only [selectCore, hsp, hsys, hit, hfil, hpf]

/-- Reduction of `selectCore` when the partition stage raises. -/
theorem selectCore_consErr (site sdefs : List (String × JVal))
    (sreq : List String) (t sysN : String) (partN : Option String)
    (ss : JVal) (allSys : List JVal) (s0 : JVal) (srest : List JVal)
    (e : ConfigErr)
    (hsp : splitTarget t = (sysN, partN))
    (hsys : lookupAssoc site "systems" = some ss)
    (hit : pyIterate ss = .ok allSys)
    (hfil : filterByName sysN allSys = .ok (s0 :: srest))
    (hpf : partitionFilter partN s0 = .error e) :
    selectCore site sdefs sreq t = (some e, []) := by
  simp only [selectCore, hsp, hsys, hit, hfil, hpf]

/-- A `systemNotFound` failure of `selectCore` leaves an empty reduced
view. -/
theorem selectCore_sysNotFound (site sdefs : List (String × JVal))
    (sreq : List String) (t n : String) (lc : List (String × JVal))
    (h : selectCore site sdefs sreq t = (some (.systemNotFound n), lc)) :
    lc = [] := by
  unfold selectCore at h
  dsimp only at h
  split at h
  · simp at h
  split at h
  · simp at h
  split at h
  · simp at h
  split at h
  · simp at h; exact h.2
  split at h
  · simp at h; exact h.2
  split at h
  · simp at h
  · have h1 := congrArg Prod.fst h
    rcases selectTail_err _ _ _ _ _ _ h1 with h2 | ⟨n', h2⟩ | ⟨u, h2⟩ <;>
      simp at h2

/-- The state after successfully selecting `daint:mc` on `cfgDaint`. -/
def cfgSelected : SiteConfig := (cfgDaint.select_subconfig "daint:mc").2

/-- C1: for every path and caller default, `get` resolves in this order:
a sticky overlay hit on the stripped path is returned immediately;
otherwise the active document (the reduced view if one is selected, else
the full original) is traversed segment by segment, where a missing
mapping key yields the schema default for the stripped path if one
exists and the caller default otherwise, while an out-of-range index or
an index into a non-container yields the caller default directly,
bypassing schema defaults. -/
theorem c1_get_resolution_order (c : SiteConfig) (p : String) (d : JVal) :
    (∀ ks v, strippedKeys (prepare p) = .ok ks →
        lookupAssoc c.sticky_options (joinSep "/" ks) = some v →
        c.get p d = .ok v) ∧
    (∀ ks, strippedKeys (prepare p) = .ok ks →
        lookupAssoc c.sticky_options (joinSep "/" ks) = none →
        c.get p d = traverseDoc c.schema_defaults (joinSep "/" ks) d
          c.pick_config (prepare p)) ∧
    (c.local_config = [] → c.pick_config = .dict c.site_config) ∧
    (c.local_config ≠ [] → c.pick_config = .dict c.local_config) ∧
    (∀ sd st (m : List (String × JVal)) (k : String) (rest : List Seg),
        k ≠ "" → strStartsWith '@' k = false → lookupAssoc m k = none →
        traverseDoc sd st d (.dict m) (.key k :: rest) =
          .ok ((lookupAssoc sd st).getD d)) ∧
    (∀ sd st (l : List JVal) (i : Int) (rest : List Seg),
        (l.length : Int) ≤ i ∨ i < -(l.length : Int) →
        traverseDoc sd st d (.list l) (.idx i :: rest) = .ok d) ∧
    (∀ sd st (i : Int) (rest : List Seg) (n : Int) (b : Bool),
        traverseDoc sd st d .null (.idx i :: rest) = .ok d ∧
        traverseDoc sd st d (.int n) (.idx i :: rest) = .ok d ∧
        traverseDoc sd st d (.bool b) (.idx i :: rest) = .ok d) := by
  refine ⟨fun ks v h1 h2 => get_sticky_hit c p d ks v h1 h2,
          fun ks h1 h2 => get_sticky_miss c p d ks h1 h2,
          fun h => by simp [SiteConfig.pick_config, h],
          fun h => by simp [SiteConfig.pick_config, h],
          fun sd st m k rest h1 h2 h3 => by
            simp [traverseDoc, h1, h2, subscript, h3],
          fun sd st l i rest h => by
            simp [traverseDoc, subscript, pyListGet_oor l i h],
          fun sd st i rest n b => ⟨rfl, rfl, rfl⟩⟩

/-- Witness for C1 at a concrete configuration: a sticky override on the
stripped path `a/b` is returned for the path `a/b`. -/
theorem c1_witness : cfgSticky.get "a/b" .null = .ok (.int 7) :=
  (c1_get_resolution_order cfgSticky "a/b" .null).1 ["a", "b"] (.int 7)
    rfl rfl

/-- C2: a sticky override installed for the stripped form of a path wins
over the document regardless of how many target selections (successful
or not) have happened since. -/
theorem c2_sticky_always_wins (c : SiteConfig) (p : String) (d : JVal)
    (ks : List String) (v : JVal) (ts : List String)
    (h1 : strippedKeys (prepare p) = .ok ks)
    (h2 : lookupAssoc c.sticky_options (joinSep "/" ks) = some v) :
    (applySelects c ts).get p d = .ok v := by
  apply get_sticky_hit _ _ _ ks v h1
  rw [(applySelects_preserves ts c).2]
  exact h2

/-- Witness for C2: the sticky value survives a successful selection
followed by a failed one, and shadows the document value of the path. -/
theorem c2_witness :
    (applySelects cfgSticky ["daint:mc", "nosys"]).get "a/2/b" .null =
      .ok (.int 7) :=
  c2_sticky_always_wins cfgSticky "a/2/b" .null ["a", "b"] (.int 7)
    ["daint:mc", "nosys"] rfl rfl

/-- C3: selection never mutates the original document (it is preserved
by any one selection and by any sequence of selections), and the result
of selecting a not-currently-active target does not depend on whatever
reduced view was in place before (reduction always starts from a fresh
copy of the original). -/
theorem c3_fresh_copy (c : SiteConfig) (t : String)
    (lc1 lc2 : List (String × JVal)) (ts : List String) :
    ((c.select_subconfig t).2).site_config = c.site_config ∧
    (applySelects c ts).site_config = c.site_config ∧
    (c.local_system ≠ some t →
      ({ c with local_config := lc1 } : SiteConfig).select_subconfig t =
      ({ c with local_config := lc2 } : SiteConfig).select_subconfig t) := by
  refine ⟨(select_preserves c t).1, (applySelects_preserves ts c).1, ?_⟩
  intro h
  obtain ⟨sc, lc, ls, st, sd, sr⟩ := c
  simp only [SiteConfig.select_subconfig, selectFresh] at h ⊢
  simp [h]

/-- Witness for C3: with a stale reduced view planted, re-selecting a
different target gives the same outcome as with an empty one, and the
original document survives a selection. -/
theorem c3_witness :
    ((cfgDaint.select_subconfig "daint:mc").2).site_config =
      cfgDaint.site_config ∧
    ({ cfgDaint with local_config := [("stale", .null)] }
        : SiteConfig).select_subconfig "daint:mc" =
      ({ cfgDaint with local_config := [] }
        : SiteConfig).select_subconfig "daint:mc" :=
  ⟨(c3_fresh_copy cfgDaint "daint:mc" [] [] []).1,
   (c3_fresh_copy cfgDaint "daint:mc" [("stale", .null)] [] []).2.2
     (by simp [cfgDaint])⟩

/-- C8 (failing input for the claim that `get` never raises): an empty
path segment raises `IndexError` while the stripped path is computed,
and a `'@'` segment applied to a non-list raises `TypeError`, instead of
degrading to the caller default as the docstring of `get` promises. -/
theorem c8_get_raises_on_miss :
    cfgDaint.get "" .null = .error .indexError ∧
    cfgDaint.get "a//b" .null = .error .indexError ∧
    cfgTiny.get "a/@x" .null = .error .typeError :=
  ⟨rfl, rfl, rfl⟩

/-- C9: re-selecting the target that a previous selection successfully
made active raises nothing and leaves the state untouched. -/
theorem c9_select_idempotent (c : SiteConfig) (t : String)
    (c' : SiteConfig) (h : c.select_subconfig t = (none, c')) :
    c'.select_subconfig t = (none, c') := by
  have hs := select_ok_system c t c' h
  unfold SiteConfig.select_subconfig
  rw [if_pos hs]

/-- Witness for C9 on the concrete two-section document. -/
theorem c9_witness :
    cfgSelected.select_subconfig "daint:mc" = (none, cfgSelected) :=
  c9_select_idempotent cfgDaint "daint:mc" cfgSelected rfl

/-- C10: `select_subconfig` is not atomic on failure: any failing
selection keeps the previously recorded active target and the original
document, a `systemNotFound` failure leaves an empty reduced view (so
`get` then resolves against the full original document), and the active
target is updated exactly by successful selections. -/
theorem c10_not_atomic (c : SiteConfig) (t : String) :
    (∀ e c', c.select_subconfig t = (some e, c') →
        c'.local_system = c.local_system ∧ c'.site_config = c.site_config) ∧
    (∀ n c', c.select_subconfig t = (some (.systemNotFound n), c') →
        c'.local_config = [] ∧ c'.pick_config = .dict c.site_config) ∧
    (∀ c', c.select_subconfig t = (none, c') → c'.local_system = some t) := by
  refine ⟨fun e c' h => select_err_state c t e c' h, ?_,
          fun c' h => select_ok_system c t c' h⟩
  intro n c' h
  have hsite := (select_err_state c t _ c' h).2
  unfold SiteConfig.select_subconfig at h
  split at h
  · exact absurd (Prod.mk.injEq .. ▸ h).1 (by simp)
  · unfold selectFresh at h
    obtain ⟨h1, h2⟩ := Prod.mk.injEq .. ▸ h
    have hlc : (selectCore c.site_config c.schema_defaults
        c.schema_required t).2 = [] :=
      selectCore_sysNotFound _ _ _ _ n _ (Prod.ext_iff.mpr ⟨h1, rfl⟩)
    have hlc' : c'.local_config = [] := by rw [← h2]; exact hlc
    refine ⟨hlc', ?_⟩
    rw [SiteConfig.pick_config, if_pos hlc', hsite]

/-- Witness for C10: after an active selection of `daint:mc`, a failing
selection of the unknown system `nosys` keeps reporting `daint:mc` as
active while `get` resolves against the full original document. -/
theorem c10_witness :
    ((cfgSelected.select_subconfig "nosys").2).local_system =
      cfgSelected.local_system ∧
    ((cfgSelected.select_subconfig "nosys").2).local_config = [] ∧
    ((cfgSelected.select_subconfig "nosys").2).pick_config =
      .dict cfgSelected.site_config :=
  ⟨((c10_not_atomic cfgSelected "nosys").1 (.systemNotFound "nosys") _
      rfl).1,
   ((c10_not_atomic cfgSelected "nosys").2.1 "nosys" _ rfl).1,
   ((c10_not_atomic cfgSelected "nosys").2.1 "nosys" _ rfl).2⟩

/-- The error component of a non-guarded selection is that of
`selectCore` on the configuration's fields. -/
theorem select_fst (c : SiteConfig) (t : String)
    (h : c.local_system ≠ some t) :
    (c.select_subconfig t).1 =
      (selectCore c.site_config c.schema_defaults c.schema_required t).1 := by
  simp [SiteConfig.select_subconfig, h, selectFresh]

/-- Counterexample for C6: on a document whose only system has an empty
`partitions` list, selecting the bare system target (no partition
component at all) still fails with the system/partition-combination
error. -/
theorem c6_counterexample :
    (cfgEmptyParts.select_subconfig "sys").1 =
      some (.comboNotFound "sys" none) ∧
    (splitTarget "sys").2 = none :=
  ⟨rfl, rfl⟩

/-- C6 (amended): for a selection that passes the repeated-target guard
and whose systems section is readable, the system-not-found error occurs
exactly when no system record matches the system component, and the
system/partition-combination error occurs exactly when the system was
found and the partitions value inspected by the emptiness check is falsy
after the optional filtering — that is, when a partition component was
given and no partition of that name exists, or when the partitions entry
of the selected system is empty even though no partition component was
given. -/
theorem c6_amended_target_errors (c : SiteConfig) (t sysN : String)
    (partN : Option String) (ss : JVal) (allSys systems : List JVal)
    (h0 : c.local_system ≠ some t)
    (hsp : splitTarget t = (sysN, partN))
    (hsys : lookupAssoc c.site_config "systems" = some ss)
    (hit : pyIterate ss = .ok allSys)
    (hfil : filterByName sysN allSys = .ok systems) :
    ((c.select_subconfig t).1 = some (.systemNotFound sysN) ↔
      systems = []) ∧
    (∀ s0 srest s0' pv, systems = s0 :: srest →
        partitionFilter partN s0 = .ok (s0', pv) →
        ((c.select_subconfig t).1 = some (.comboNotFound sysN partN) ↔
          pyFalsy pv = true)) ∧
    (∀ s0 srest (m : List (String × JVal)) pv0 parts kept pn,
        systems = s0 :: srest → s0 = .dict m →
        lookupAssoc m "partitions" = some pv0 →
        partN = some pn → pyIterate pv0 = .ok parts →
        filterByName pn parts = .ok kept →
        ((c.select_subconfig t).1 = some (.comboNotFound sysN partN) ↔
          kept = [])) := by
  have hrw := select_fst c t h0
  refine ⟨?_, ?_, ?_⟩
  · cases systems with
    | nil =>
        rw [hrw, selectCore_nil c.site_config c.schema_defaults
          c.schema_required t sysN partN ss allSys hsp hsys hit hfil]
        simp
    | cons s0 srest =>
        simp only [hrw]
        constructor
        · intro hx
          exfalso
          rcases hpf : partitionFilter partN s0 with e | ⟨s0', pv⟩
          · rw [selectCore_consErr c.site_config c.schema_defaults
              c.schema_required t sysN partN ss allSys s0 srest e
              hsp hsys hit hfil hpf] at hx
            simp at hx
            exact absurd (hx ▸ partitionFilter_err partN s0 e hpf) (by simp)
          · rw [selectCore_cons c.site_config c.schema_defaults
              c.schema_required t sysN partN ss allSys s0 srest s0' pv
              hsp hsys hit hfil hpf] at hx
            by_cases hf : pyFalsy pv = true <;> simp [hf] at hx
            rcases selectTail_err _ _ _ _ _ _ hx with h2 | ⟨n', h2⟩ |
              ⟨u, h2⟩ <;> simp at h2
        · intro hx; simp at hx
  · intro s0 srest s0' pv hs hpf
    subst hs
    rw [hrw, selectCore_cons c.site_config c.schema_defaults
      c.schema_required t sysN partN ss allSys s0 srest s0' pv
      hsp hsys hit hfil hpf]
    by_cases hf : pyFalsy pv = true <;> simp [hf]
    intro hx
    rcases selectTail_err _ _ _ _ _ _ hx with h2 | ⟨n', h2⟩ | ⟨u, h2⟩ <;>
      simp at h2
  · intro s0 srest m pv0 parts kept pn hs hm hpv hpn hp2 hfk
    subst hs; subst hm; subst hpn
    have hpf : partitionFilter (some pn) (.dict m) =
        .ok (.dict (insertAssoc m "partitions" (.list kept)), .list kept) := by
      simp [partitionFilter, hpv, hp2, hfk]
    rw [hrw, selectCore_cons c.site_config c.schema_defaults
      c.schema_required t sysN (some pn) ss allSys (.dict m) srest _ _
      hsp hsys hit hfil hpf]
    by_cases hk : kept = []
    · subst hk; simp [pyFalsy]
    · have hf : pyFalsy (JVal.list kept) = false := by
        simp [pyFalsy, hk]
      simp [hf, hk]
      intro hx
      rcases selectTail_err _ _ _ _ _ _ hx with h2 | ⟨n', h2⟩ | ⟨u, h2⟩ <;>
        simp at h2

/-- Witness for the amended C6: the combination error fires on an empty
partition list without a partition component, and the system-not-found
error fires for an unknown system component. -/
theorem c6_witness :
    (cfgEmptyParts.select_subconfig "sys").1 =
      some (.comboNotFound "sys" none) ∧
    (cfgDaint.select_subconfig "nosys:mc").1 =
      some (.systemNotFound "nosys") :=
  ⟨((c6_amended_target_errors cfgEmptyParts "sys" "sys" none
      (.list [.dict [("name", .str "sys"), ("partitions", .list [])]])
      [.dict [("name", .str "sys"), ("partitions", .list [])]]
      [.dict [("name", .str "sys"), ("partitions", .list [])]]
      (by decide) rfl rfl rfl rfl).2.1
      (.dict [("name", .str "sys"), ("partitions", .list [])]) []
      (.dict [("name", .str "sys"), ("partitions", .list [])])
      (.list []) rfl rfl).mpr rfl,
   ((c6_amended_target_errors cfgDaint "nosys:mc" "nosys" (some "mc")
      (.list [.dict [("name", .str "daint"),
                     ("hostnames", .list [.str "daint"]),
                     ("partitions", .list [
                        .dict [("name", .str "mc"),
                               ("environs", .list [.str "gnu"])]])]])
      [.dict [("name", .str "daint"),
              ("hostnames", .list [.str "daint"]),
              ("partitions", .list [
                 .dict [("name", .str "mc"),
                        ("environs", .list [.str "gnu"])]])]]
      [] (by decide) rfl rfl rfl rfl).1).mpr rfl⟩

/-- C4: once a selection has filtered its system, rebuilt the sections
and passed the required-sections check, it fails naming exactly the
environment names referenced by the partitions of the selected system
but absent from the reduced `environments` section, and succeeds when
every referenced name is present. -/
theorem c4_environs_check (c : SiteConfig) (t sysN : String)
    (partN : Option String) (ss : JVal) (allSys : List JVal)
    (s0 s0' pv : JVal) (srest : List JVal)
    (m' : List (String × JVal)) (pv2 ev : JVal)
    (lc : List (String × JVal)) (parts sysEnvs envObjs found : List JVal)
    (h0 : c.local_system ≠ some t)
    (hsp : splitTarget t = (sysN, partN))
    (hsys : lookupAssoc c.site_config "systems" = some ss)
    (hit : pyIterate ss = .ok allSys)
    (hfil : filterByName sysN allSys = .ok (s0 :: srest))
    (hpf : partitionFilter partN s0 = .ok (s0', pv))
    (hfal : pyFalsy pv = false)
    (hb : buildSections c.schema_defaults t
        [("systems", JVal.list (s0' :: srest))] c.site_config = (none, lc))
    (hreq : requiredMissing c.schema_required lc = none)
    (hm : s0' = .dict m')
    (hpv : lookupAssoc m' "partitions" = some pv2)
    (hp2 : pyIterate pv2 = .ok parts)
    (hch : chainEnvirons parts = .ok sysEnvs)
    (hlc : lookupAssoc lc "environments" = some ev)
    (hev : pyIterate ev = .ok envObjs)
    (hnm : namesOf envObjs = .ok found) :
    ((∃ x ∈ sysEnvs, x ∉ found) →
       ∃ u, (c.select_subconfig t).1 = some (.environsNotDefined u t) ∧
         ∀ y, y ∈ u ↔ y ∈ sysEnvs ∧ y ∉ found) ∧
    ((∀ x ∈ sysEnvs, x ∈ found) → (c.select_subconfig t).1 = none) := by
  have hrw := select_fst c t h0
  rw [selectCore_cons c.site_config c.schema_defaults c.schema_required
    t sysN partN ss allSys s0 srest s0' pv hsp hsys hit hfil hpf,
    if_neg (by simp [hfal])] at hrw
  have htail : (selectTail c.schema_defaults c.schema_required t
      c.site_config (s0' :: srest)).1 =
      (match envsCheck t (s0' :: srest) lc with
       | some e => some e
       | none => none) := by
    simp only [selectTail, hb, hreq]
    rcases envsCheck t (s0' :: srest) lc with _ | e <;> rfl
  have henv : envsCheck t (s0' :: srest) lc =
      (if ((dedupJ sysEnvs).filter (fun x => x ∉ found)).isEmpty then none
       else some (.environsNotDefined
         ((dedupJ sysEnvs).filter (fun x => x ∉ found)) t)) := by
    subst hm
    simp only [envsCheck, hpv, hp2, hch, hlc, hev, hnm]
  rw [htail, henv] at hrw
  constructor
  · rintro ⟨x, hx1, hx2⟩
    have hmem : x ∈ (dedupJ sysEnvs).filter (fun x => x ∉ found) := by
      simp [List.mem_filter, mem_dedupJ, hx1, hx2]
    have hne : ((dedupJ sysEnvs).filter (fun x => x ∉ found)).isEmpty =
        false := by
      rcases hq : (dedupJ sysEnvs).filter (fun x => x ∉ found) with _ | _
      · rw [hq] at hmem; simp at hmem
      · simp [hq]
    refine ⟨(dedupJ sysEnvs).filter (fun x => x ∉ found), ?_, ?_⟩
    · rw [hrw]
      simp only [hne]
      rw [if_neg (by simp)]
    · intro y
      simp [List.mem_filter, mem_dedupJ]
  · intro hall
    have hempty : (dedupJ sysEnvs).filter (fun x => x ∉ found) = [] := by
      rcases hq : (dedupJ sysEnvs).filter (fun x => x ∉ found) with _ | ⟨a, r⟩
      · rfl
      · exfalso
        have : a ∈ (dedupJ sysEnvs).filter (fun x => x ∉ found) := by
          rw [hq]; exact List.mem_cons_self a r
        rw [List.mem_filter, mem_dedupJ] at this
        have h2 := this.2
        simp at h2
        exact h2 (hall a this.1)
    rw [hrw]
    have hisE : ((dedupJ sysEnvs).filter (fun x => x ∉ found)).isEmpty =
        true := by rw [hempty]; rfl
    simp only [hisE]
    simp

/-- The entry list of the `daint` system record of `siteDaint`. -/
def mDaint : List (String × JVal) :=
  [("name", .str "daint"),
   ("hostnames", .list [.str "daint"]),
   ("partitions", .list [
      .dict [("name", .str "mc"), ("environs", .list [.str "gnu"])]])]

/-- The entry list of the `daint` system record of `siteDaint2`. -/
def mDaint2 : List (String × JVal) :=
  [("name", .str "daint"),
   ("partitions", .list [
      .dict [("name", .str "mc"),
             ("environs", .list [.str "gnu", .str "intel"])]])]

/-- The environment record shared by both example documents. -/
def envRecGnu : JVal :=
  .dict [("name", .str "gnu"), ("target_systems", .list [.str "*"])]

/-- Witness for C4: on `cfgDaint2` the selection fails naming exactly
`intel`, and on `cfgDaint` (all referenced environments defined) it
succeeds. -/
theorem c4_witness :
    (∃ u, (cfgDaint2.select_subconfig "daint:mc").1 =
        some (.environsNotDefined u "daint:mc") ∧
      ∀ y, y ∈ u ↔
        y ∈ [JVal.str "gnu", JVal.str "intel"] ∧ y ∉ [JVal.str "gnu"]) ∧
    (cfgDaint.select_subconfig "daint:mc").1 = none :=
  ⟨(c4_environs_check cfgDaint2 "daint:mc" "daint" (some "mc")
      (.list [.dict mDaint2]) [.dict mDaint2] (.dict mDaint2)
      (.dict mDaint2)
      (.list [.dict [("name", .str "mc"),
                     ("environs", .list [.str "gnu", .str "intel"])]])
      [] mDaint2
      (.list [.dict [("name", .str "mc"),
                     ("environs", .list [.str "gnu", .str "intel"])]])
      (.list [envRecGnu])
      [("systems", .list [.dict mDaint2]),
       ("environments", .list [envRecGnu])]
      [.dict [("name", .str "mc"),
              ("environs", .list [.str "gnu", .str "intel"])]]
      [.str "gnu", .str "intel"] [envRecGnu] [.str "gnu"]
      (by decide) rfl rfl rfl rfl rfl rfl rfl rfl rfl rfl rfl rfl rfl
      rfl rfl).1
      ⟨.str "intel", by simp, by simp⟩,
   (c4_environs_check cfgDaint "daint:mc" "daint" (some "mc")
      (.list [.dict mDaint]) [.dict mDaint] (.dict mDaint) (.dict mDaint)
      (.list [.dict [("name", .str "mc"),
                     ("environs", .list [.str "gnu"])]])
      [] mDaint
      (.list [.dict [("name", .str "mc"),
                     ("environs", .list [.str "gnu"])]])
      (.list [envRecGnu])
      [("systems", .list [.dict mDaint]),
       ("environments", .list [envRecGnu])]
      [.dict [("name", .str "mc"), ("environs", .list [.str "gnu"])]]
      [.str "gnu"] [envRecGnu] [.str "gnu"]
      (by decide) rfl rfl rfl rfl rfl rfl rfl rfl rfl rfl rfl rfl rfl
      rfl rfl).2
      (by simp)⟩


/-- Merging one parsed slot never changes the attribute name. -/
theorem combineEntry_fst (om : List (String × OptionSpec))
    (ns : Option (List (String × Option OptVal)))
    (defaults : List (String × Option OptVal))
    (p q : String × Option OptVal)
    (h : combineEntry om ns defaults p = .ok q) : q.1 = p.1 := by
  unfold combineEntry at h
  rcases hp : p.2 with _ | v <;> rw [hp] at h
  · simp at h; rw [← h]
  · dsimp only at h
    split at h
    · split at h
      · simp only [bind, Except.bind] at h
        split at h
        · simp at h
        · simp at h; rw [← h]
      · simp at h; rw [← h]
    · simp at h; rw [← h]

/-- A slot left unassigned by the internal parser is filled from the
carried-over namespace and then the defaults. -/
theorem parseArgsCombine_none_slot (om : List (String × OptionSpec))
    (ns : Option (List (String × Option OptVal))) :
    ∀ (parsed vals defaults : List (String × Option OptVal))
      (attr : String),
    parseArgsCombine om parsed ns defaults = .ok vals →
    lookupAssoc parsed attr = some none →
    lookupAssoc vals attr = some (resolve_attr [ns, some defaults] attr) := by
  intro parsed
  induction parsed with
  | nil => intro vals defaults attr hc hp; simp [lookupAssoc] at hp
  | cons p rest ih =>
      intro vals defaults attr hc hp
      rw [parseArgsCombine, List.mapM_cons] at hc
      rcases hfp : combineEntry om ns defaults p with e | hd <;>
        rw [hfp] at hc <;> simp only [bind, Except.bind] at hc
      · simp at hc
      rcases hrest : List.mapM (combineEntry om ns defaults) rest
          with e | tl <;> rw [hrest] at hc
      · simp at hc
      simp only [pure, Except.pure] at hc
      have hvals : vals = hd :: tl := by
        have := (Except.ok.injEq .. ▸ hc)
        exact this.symm
      subst hvals
      unfold lookupAssoc at hp
      split at hp
      · next heq =>
          have hp2 : p.2 = none := by
            obtain ⟨k, v⟩ := p
            simp at hp
            simp [hp]
          have hent : combineEntry om ns defaults p =
              .ok (p.1, resolve_attr [ns, some defaults] p.1) := by
            unfold combineEntry; rw [hp2]
          have hhd : hd = (p.1, resolve_attr [ns, some defaults] p.1) := by
            rw [hfp] at hent
            exact (Except.ok.injEq .. ▸ hent)
          unfold lookupAssoc
          rw [hhd]
          simp only [heq]
          simp
      · next heq =>
          unfold lookupAssoc
          rw [combineEntry_fst om ns defaults p hd hfp]
          simp only [if_neg heq]
          exact ih tl defaults attr
            (by rw [parseArgsCombine]; exact hrest) hp

/-- A slot holding a defined value is not undefined. -/
theorem undefinedVal_some (v : OptVal) (h : v ≠ OptVal.constDefault) :
    undefinedVal (some v) = false := by
  cases v <;> simp_all [undefinedVal]

/-- A defined slot short-circuits environment-variable resolution in
`__getattr__`: the stored value is returned for any environment. -/
theorem getattrNs_defined (env : List (String × String))
    (om : List (String × OptionSpec))
    (vals : List (String × Option OptVal)) (name : String) (v : OptVal)
    (h1 : strStartsWith '_' name = false)
    (h2 : lookupAssoc vals name = some (some v))
    (h3 : v ≠ OptVal.constDefault) :
    getattrNs env om vals name = .ok (some v) := by
  unfold getattrNs
  rw [if_neg (by simp [h1]), h2]
  rcases hom : lookupAssoc om name with _ | spec
  · rfl
  · simp only []
    rcases he : spec.envvar with _ | espec
    · simp
    · rw [undefinedVal_some v h3]
      simp

/-- The option map of the C5 scenario: an `append`-kind option bound to
the environment variable `RFM_X` and the configuration path
`general/x`. -/
def omC5 : List (String × OptionSpec) :=
  [("x", ⟨some "RFM_X", some "general/x", "append", .str, none⟩)]

/-- The environment of the C5 scenario. -/
def envC5 : List (String × String) := [("RFM_X", "a,b")]

/-- Counterexample for C5: with no command-line value, `RFM_X` set to
`a,b` and a carried-over value `["c"]`, the option resolves to the
carried-over value `["c"]` alone — not to the claimed concatenation
`["c","a","b"]`. -/
theorem c5_counterexample :
    resolveOption envC5 omC5 [("x", none)]
        (some [("x", some (.list ["c"]))]) [("x", none)] "x" =
      .ok (.ok (some (.list ["c"]))) ∧
    (Except.ok (Except.ok (some (OptVal.list ["c"]))) :
        Except Unit (Except NsErr (Option OptVal))) ≠
      .ok (.ok (some (.list ["c", "a", "b"]))) :=
  ⟨rfl, by simp⟩

/-- C5 (amended): when no command-line value is supplied, `parse_args`
fills the slot from the carried-over namespace (then the defaults)
before `__getattr__` runs, and a defined slot short-circuits
environment-variable resolution; hence an `append` option with a
carried-over value resolves to that carried-over value alone for any
environment, and concatenation with the carried-over value happens only
for values freshly parsed from the command line. -/
theorem c5_amended_carryover_shadows_env
    (env : List (String × String)) (om : List (String × OptionSpec))
    (parsed vals defaults : List (String × Option OptVal))
    (ns : Option (List (String × Option OptVal)))
    (name : String) (v : OptVal)
    (hc : parseArgsCombine om parsed ns defaults = .ok vals)
    (hp : lookupAssoc parsed name = some none)
    (hr : resolve_attr [ns, some defaults] name = some v)
    (hv : v ≠ OptVal.constDefault)
    (hn : strStartsWith '_' name = false) :
    resolveOption env om parsed ns defaults name = .ok (.ok (some v)) := by
  unfold resolveOption
  rw [hc]
  simp only [bind, Except.bind]
  have hlv := parseArgsCombine_none_slot om ns parsed vals defaults name
    hc hp
  rw [hr] at hlv
  rw [getattrNs_defined env om vals name v hn hlv hv]

/-- Witness for the amended C5 at the concrete scenario of the spec:
the result is the carried-over `["c"]`. -/
theorem c5_witness :
    resolveOption envC5 omC5 [("x", none)]
        (some [("x", some (.list ["c"]))]) [("x", none)] "x" =
      .ok (.ok (some (.list ["c"]))) :=
  c5_amended_carryover_shadows_env envC5 omC5 [("x", none)]
    [("x", some (.list ["c"]))] [("x", none)]
    (some [("x", some (.list ["c"]))]) "x" (.list ["c"])
    rfl rfl rfl (by simp) rfl

/-- Any member of an association list is found under its key. -/
theorem lookupAssoc_isSome_of_mem {α : Type} :
    ∀ (l : List (String × α)) (p : String × α), p ∈ l →
    ∃ v, lookupAssoc l p.1 = some v := by
  intro l
  induction l with
  | nil => intro p hp; simp at hp
  | cons q rest ih =>
      intro p hp
      unfold lookupAssoc
      by_cases hq : q.1 = p.1
      · exact ⟨q.2, by simp [hq]⟩
      · rcases List.mem_cons.mp hp with h | h
        · exact absurd (by rw [h]) hq
        · obtain ⟨v, hv⟩ := ih p h
          exact ⟨v, by simp [hq, hv]⟩

/-- For a mapped, non-underscore option name, `__getattr__` never
raises `AttributeError`. -/
theorem getattrNs_no_attrErr (env : List (String × String))
    (om : List (String × OptionSpec))
    (ns : List (String × Option OptVal)) (name : String)
    (spec : OptionSpec)
    (h1 : strStartsWith '_' name = false)
    (h2 : lookupAssoc om name = some spec) :
    getattrNs env om ns name ≠ .error .attributeError := by
  unfold getattrNs
  rw [if_neg (by simp [h1]), h2]
  rcases hns : lookupAssoc ns name with _ | r <;> dsimp only <;>
    repeat' split
  all_goals simp

/-- The loop of `update_config` processes every option independently:
the outcome is the per-option error and push contributions side by
side. -/
theorem updateConfigGo_eq (env : List (String × String))
    (om : List (String × OptionSpec))
    (ns : List (String × Option OptVal)) :
    ∀ (l : List (String × OptionSpec)),
    (∀ p ∈ l, strStartsWith '_' p.1 = false ∧
        ∃ spec, lookupAssoc om p.1 = some spec) →
    updateConfigGo env om ns l =
      .ok (l.filterMap (fun p => (processOption env om ns p).1),
           l.filterMap (fun p => (processOption env om ns p).2)) := by
  intro l
  induction l with
  | nil => intro h; rfl
  | cons p rest ih =>
      intro h
      obtain ⟨hp1, spec, hp2⟩ := h p (List.mem_cons_self p rest)
      have ihr := ih (fun q hq => h q (List.mem_cons_of_mem p hq))
      unfold updateConfigGo
      simp only [List.filterMap_cons]
      by_cases hskip : p.2.action = "version" ∨ p.2.configvar = none
      · have hproc : processOption env om ns p = (none, none) := by
          unfold processOption; rw [if_pos hskip]
        rw [if_pos hskip, hproc, ihr]
      · rcases hga : getattrNs env om ns p.1 with e | value
        · cases e with
          | valueError =>
              have hproc : processOption env om ns p =
                  (some .valueError, none) := by
                unfold processOption; rw [if_neg hskip, hga]
              rw [if_neg hskip, hproc, ihr]
              simp [bind, Except.bind]
          | attributeError =>
              exact absurd hga
                (getattrNs_no_attrErr env om ns p.1 spec hp1 hp2)
        · by_cases hu : undefinedVal value = true
          · have hproc : processOption env om ns p = (none, none) := by
              unfold processOption; rw [if_neg hskip, hga]
              simp [hu]
            rw [if_neg hskip, hproc, ihr]
            simp [hu]
          · cases value with
            | none => simp [undefinedVal] at hu
            | some v =>
                rcases hcv : p.2.configvar with _ | cv
                · exact absurd (Or.inr hcv) hskip
                · have hproc : processOption env om ns p =
                      (none, some (cv, v)) := by
                    unfold processOption
                    rw [if_neg hskip, hga]
                    simp only [hu]
                    rw [hcv]
                    simp
                  have hskip' : ¬(p.2.action = "version" ∨
                      (some cv : Option String) = none) := by
                    rintro (hx | hx)
                    · exact hskip (Or.inl hx)
                    · simp at hx
                  rw [if_neg hskip', hproc, ihr]
                  simp only [Bool.not_eq_true] at hu
                  simp [hu, bind, Except.bind]

/-- C7: `update_config` resolves every mapped option, collecting the
conversion errors and the sticky pushes option by option — a conversion
failure of one option never aborts the processing of the remaining
options, and all collected errors are returned together rather than
raised at the first failure. -/
theorem c7_update_config_collects (env : List (String × String))
    (om : List (String × OptionSpec))
    (ns : List (String × Option OptVal))
    (h : ∀ p ∈ om, strStartsWith '_' p.1 = false) :
    update_config env om ns =
      .ok (om.filterMap (fun p => (processOption env om ns p).1),
           om.filterMap (fun p => (processOption env om ns p).2)) := by
  apply updateConfigGo_eq
  intro p hp
  exact ⟨h p hp, lookupAssoc_isSome_of_mem om p hp⟩

/-- The option map of the C7 scenario: a boolean-toggle option and a
plain store option, both bound to environment variables and
configuration paths. -/
def omC7 : List (String × OptionSpec) :=
  [("flag", ⟨some "RFM_F", some "general/flag", "store_true", .str, none⟩),
   ("out", ⟨some "RFM_O", some "general/out", "store", .str, none⟩)]

/-- The environment of the C7 scenario: the boolean variable holds an
unrecognized token. -/
def envC7 : List (String × String) :=
  [("RFM_F", "notabool"), ("RFM_O", "file")]

/-- Witness for C7: the bad boolean token becomes one collected
conversion error while the second option is still resolved and pushed. -/
theorem c7_witness :
    update_config envC7 omC7 [("flag", none), ("out", none)] =
      .ok ([.valueError], [("general/out", OptVal.str "file")]) := by
  rw [c7_update_config_collects envC7 omC7 [("flag", none), ("out", none)]
    (by decide)]
  rfl
